import Mathlib

/-!
Verification of the response-normalization layer, secret resolution, search
fallback and two-stage report pipeline of `app.py` (KOSPI investment-report
generator), via a shallow embedding of the relevant Python code into Lean.

Python values are modelled by the inductive type `Value` (None, int, str,
list, dict); Python truthiness by `truthy`; `d.get(k)` by `dictGet` (default
`Value.none`); `a or b` by `pyOr`; `"sep".join(xs)` by `pyJoin`, which fails
with a TypeError exactly when some element is not a string, as in Python.
-/

set_option autoImplicit false

namespace LibraryChatbot

/-- A Python value, restricted to the shapes the program manipulates. -/
inductive Value where
  | none
  | int (n : Int)
  | str (s : String)
  | list (xs : List Value)
  | dict (kvs : List (String × Value))

/-- Python truthiness (`bool(v)`) for the shapes of `Value`. -/
def truthy : Value → Bool
  | Value.none => false
  | Value.int n => n != 0
  | Value.str s => s != ""
  | Value.list xs => !xs.isEmpty
  | Value.dict kvs => !kvs.isEmpty

/-- Python `a or b`: `a` if truthy, else `b`. -/
def pyOr (a b : Value) : Value := if truthy a then a else b

/-- Whitespace for Python `str.strip()`. -/
def isPySpace (c : Char) : Bool :=
  c = ' ' || c = '\t' || c = '\n' || c = '\x0b' || c = '\x0c' || c = '\r'

/-- Python `s.strip()`: remove leading and trailing whitespace. -/
def pyStrip (s : String) : String :=
  String.mk (((s.data.dropWhile isPySpace).reverse.dropWhile isPySpace).reverse)

/-- Python `d.get(k)` on a dict modelled as an association list: value of the
first matching key, or `Value.none` when absent. -/
def dictGet : List (String × Value) → String → Value
  | [], _ => Value.none
  | (k, v) :: rest, key => if k = key then v else dictGet rest key

/-- Python `k in d` for a dict modelled as an association list. -/
def dictHas (kvs : List (String × Value)) (key : String) : Bool :=
  kvs.any (fun p => p.1 == key)

/-- Coercion used by `str.join`: a `str` element passes, anything else raises
`TypeError` as in Python. -/
def pyStr : Value → Except String String
  | Value.str s => Except.ok s
  | _ => Except.error "TypeError: sequence item: expected str instance"

/-- Check every element of the list is a `str`, returning the strings. -/
def pyStrAll : List Value → Except String (List String)
  | [] => Except.ok []
  | v :: vs => do
    let s ← pyStr v
    let rest ← pyStrAll vs
    Except.ok (s :: rest)

/-- Python `sep.join(xs)`: raises `TypeError` if some element is not a string,
otherwise intercalates. -/
def pyJoin (sep : String) (xs : List Value) : Except String String :=
  (pyStrAll xs).map (String.intercalate sep)

/-- The shape dispatch of `extract_contents` (app.py lines 84-91): the document
list `docs` derived from `results`. A sequence is taken as is; a mapping with a
`"results"` key holding a sequence yields that sequence; any other mapping is
treated as a single document; anything else yields no documents. -/
def docsOf : Value → List Value
  | Value.list xs => xs
  | Value.dict kvs =>
    if dictHas kvs "results" then
      match dictGet kvs "results" with
      | Value.list xs => xs
      | _ => [Value.dict kvs]
    else [Value.dict kvs]
  | _ => []

/-- The per-document loop of `extract_contents` (app.py lines 95-104):
non-dict elements are skipped; text fragment `c = d.get("content") or
d.get("snippet") or ""` is appended when truthy; citation `(title, url)` with
`url = d.get("url") or d.get("link") or ""` and `title = d.get("title") or ""`
is appended when `url or title` is truthy. Returns (fragments, sources) in
input order. -/
def extractLoop : List Value → List Value × List (Value × Value)
  | [] => ([], [])
  | d :: ds =>
    let rest := extractLoop ds
    match d with
    | Value.dict kvs =>
      let c := pyOr (pyOr (dictGet kvs "content") (dictGet kvs "snippet")) (Value.str "")
      let url := pyOr (pyOr (dictGet kvs "url") (dictGet kvs "link")) (Value.str "")
      let title := pyOr (dictGet kvs "title") (Value.str "")
      ((if truthy c then c :: rest.1 else rest.1),
       (if truthy url || truthy title then (title, url) :: rest.2 else rest.2))
    | _ => rest

/-- Function `extract_contents` (app.py lines 75-106). Returns
`"\n\n".join(contents).strip()` paired with the sources list; the join raises
(`Except.error`) when a collected fragment is not a string, exactly as the
Python `str.join` would. -/
def extract_contents (results : Value) : Except String (String × List (Value × Value)) :=
  match results with
  | Value.none => Except.ok ("", [])
  | _ =>
    let acc := extractLoop (docsOf results)
    (pyJoin "\n\n" acc.1).map (fun t => (pyStrip t, acc.2))

/-! Spec-side description of the per-document extraction, written from the
spec's words ("first non-empty of ..." over string-valued fields), to be
compared with `extractLoop`, which is translated from the source. -/

/-- The string content of a field value, when it is a string. -/
def vToOpt : Value → Option String
  | Value.str s => some s
  | _ => Option.none

/-- First non-empty string among a list of optional strings; empty string when
there is none. -/
def firstNonEmptyStr : List (Option String) → String
  | [] => ""
  | Option.none :: rest => firstNonEmptyStr rest
  | some s :: rest => if s = "" then firstNonEmptyStr rest else s

/-- Spec-side per-document loop: skip non-mappings; text is the first
non-empty of the "content" and "snippet" fields; url the first non-empty of
"url" and "link"; title the "title" field; the text fragment is appended when
non-empty and the citation (title, url) when either part is non-empty. -/
def specExtractDocs : List Value → List String × List (String × String)
  | [] => ([], [])
  | d :: ds =>
    let rest := specExtractDocs ds
    match d with
    | Value.dict kvs =>
      let c := firstNonEmptyStr [vToOpt (dictGet kvs "content"), vToOpt (dictGet kvs "snippet")]
      let url := firstNonEmptyStr [vToOpt (dictGet kvs "url"), vToOpt (dictGet kvs "link")]
      let title := firstNonEmptyStr [vToOpt (dictGet kvs "title")]
      ((if c ≠ "" then c :: rest.1 else rest.1),
       (if url ≠ "" ∨ title ≠ "" then (title, url) :: rest.2 else rest.2))
    | _ => rest

/-- A field value is either absent/None or a string. -/
def StrOrAbsent (v : Value) : Prop := v = Value.none ∨ ∃ s, v = Value.str s

/-- A document whose five relevant fields, where present, are strings (or
Python `None`). Non-mapping documents are unconstrained since they are
skipped. -/
def WellFormedDoc (d : Value) : Prop :=
  ∀ kvs, d = Value.dict kvs →
    StrOrAbsent (dictGet kvs "content") ∧ StrOrAbsent (dictGet kvs "snippet") ∧
    StrOrAbsent (dictGet kvs "url") ∧ StrOrAbsent (dictGet kvs "link") ∧
    StrOrAbsent (dictGet kvs "title")

/-! Secret resolution (`get_secret`, app.py lines 23-31). The process
environment is a total map `String → String` (`os.getenv(key, "")`); the
streamlit secret store either raises on any access (unavailable) or behaves
as a partial map whose `get` returns the default for an absent key. -/

/-- The streamlit secret store as observed through `st.secrets.get`. -/
inductive SecretStore where
  | unavailable (err : String)
  | available (entries : String → Option String)

/-- Model of `st.secrets.get(key, default)`: raises when the store is unavailable,
otherwise returns the stored value or the default. -/
def storeGet : SecretStore → String → String → Except String String
  | SecretStore.unavailable e, _, _ => Except.error e
  | SecretStore.available m, key, default => Except.ok ((m key).getD default)

/-- Function `get_secret` (app.py lines 23-31): the environment value when non-empty,
otherwise `st.secrets.get(key, default)` with any store failure swallowed into
the default. -/
def get_secret (env : String → String) (store : SecretStore)
    (key : String) (default : String) : String :=
  let v := env key
  if v ≠ "" then v
  else
    match storeGet store key default with
    | Except.ok s => s
    | Except.error _ => default

/-! Search client (`tavily_search`, app.py lines 63-73). The tool's `run` and
`invoke` methods are modelled as functions of the constructed tool's
`max_results` and the query, returning `Except` (an `error` is a raised
Python exception of any kind). -/

/-- Function `tavily_search` (app.py lines 63-73): try `tool.run(query)`; on any exception, return
`tool.invoke(query)` on the same tool (same `max_results`) with the same
query. -/
def tavily_search {E R : Type} (run invoke : Nat → String → Except E R)
    (max_results : Nat) (query : String) : Except E R :=
  match run max_results query with
  | Except.ok r => Except.ok r
  | Except.error _ => invoke max_results query

/-! The page script: module-level secret guards (app.py lines 48-54) and the
button handler (lines 115-187), as a pure function from injected external
behaviours to the list of external API calls made and the final outcome. -/

/-- An external API call made during one page run. -/
inductive Event where
  | search (query : String) (max_results : Nat)
  | generate (stage : String) (prompt : String)

/-- The final state of one page run. -/
inductive Outcome where
  | missingConfig (key : String)
  | idle
  | searchError (msg : String)
  | uncaughtTypeError (msg : String)
  | noContent
  | generationFailed (stage : String) (msg : String)
  | done (keywords : String) (report : String)

/-- The stage-1 prompt (app.py lines 145-152), built from the raw
`stock_name` and the combined content, then stripped. -/
def keyword_prompt (stock_name combined_content : String) : String :=
  pyStrip ("다음은 " ++ stock_name ++ "에 대한 최근 뉴스 요약 텍스트입니다.\n" ++
   "이 내용을 바탕으로 핵심 키워드 5개를 **한글 단어/짧은 구** 형태로 추출해주세요.\n" ++
   "불필요한 설명 없이, 줄바꿈으로 5개만 출력하세요.\n\n" ++
   "뉴스 내용:\n" ++ combined_content)

/-- The stage-2 prompt (app.py lines 166-178), built from `stock_name` and the
same combined content, then stripped. -/
def report_prompt (stock_name combined_content : String) : String :=
  pyStrip ("당신은 한국 주식 리서치 애널리스트입니다.\n" ++
   "다음 뉴스 내용을 바탕으로 **" ++ stock_name ++ "**에 대한 한국어 투자 보고서를 작성하세요.\n\n" ++
   "형식:\n1) 핵심 뉴스 요약 (3~5줄)\n2) 종합 분석 (긍정/부정 요인 균형, 6~10줄)\n" ++
   "3) 투자자에게 주는 시사점 (3~6줄, 리스크 포함)\n4) 한 줄 결론 (중립적 톤, 과도한 단정 금지)\n\n" ++
   "뉴스 내용:\n" ++ combined_content)

/-- One page run: the module-level guards, then (when the button is pressed
with a non-blank stock name) search → normalize → keyword stage → report
stage, each `st.stop()` cutting the run short. `run`/`invoke` are the search
tool's two call surfaces; `llm` is `llm.invoke` on a prompt. Returns the
external calls made, in order, and the outcome. -/
def appRun (openai_key tavily_key : String)
    (run invoke : Nat → String → Except String Value)
    (llm : String → Except String String)
    (max_results : Nat) (button : Bool) (stock_name : String) :
    List Event × Outcome :=
  if openai_key = "" then ([], Outcome.missingConfig "OPENAI_API_KEY")
  else if tavily_key = "" then ([], Outcome.missingConfig "TAVILY_API_KEY")
  else if button ∧ pyStrip stock_name ≠ "" then
    let q := pyStrip stock_name ++ " 최근 뉴스"
    match tavily_search run invoke max_results q with
    | Except.error e => ([Event.search q max_results], Outcome.searchError e)
    | Except.ok results =>
      match extract_contents results with
      | Except.error e => ([Event.search q max_results], Outcome.uncaughtTypeError e)
      | Except.ok (combined_content, _sources) =>
        if combined_content = "" then ([Event.search q max_results], Outcome.noContent)
        else
          let kp := keyword_prompt stock_name combined_content
          match llm kp with
          | Except.error e =>
            ([Event.search q max_results, Event.generate "keywords" kp],
             Outcome.generationFailed "keywords" e)
          | Except.ok kw =>
            let rp := report_prompt stock_name combined_content
            match llm rp with
            | Except.error e =>
              ([Event.search q max_results, Event.generate "keywords" kp,
                Event.generate "report" rp],
               Outcome.generationFailed "report" e)
            | Except.ok rep =>
              ([Event.search q max_results, Event.generate "keywords" kp,
                Event.generate "report" rp],
               Outcome.done (pyStrip kw) (pyStrip rep))
  else ([], Outcome.idle)

/-! Concrete fixtures used to instantiate the theorems below on closed
inputs. -/

/-- A primary call surface that raises a transient transport error. -/
def runTransient : Nat → String → Except String String :=
  fun _ _ => Except.error "ReadTimeout: transient network error"

/-- A primary call surface that succeeds. -/
def runOk : Nat → String → Except String String :=
  fun _ q => Except.ok ("run:" ++ q)

/-- An alternate call surface that succeeds. -/
def invokeOk : Nat → String → Except String String :=
  fun _ q => Except.ok ("invoke:" ++ q)

/-- A search tool call returning an empty result list. -/
def searchOkEmpty : Nat → String → Except String Value :=
  fun _ _ => Except.ok (Value.list [])

/-- A search tool call returning one document with content, title and url. -/
def searchOkDocs : Nat → String → Except String Value :=
  fun _ _ => Except.ok (Value.list
    [Value.dict [("content", Value.str "삼성전자 신제품 발표"),
                 ("title", Value.str "뉴스"), ("url", Value.str "http://n/1")]])

/-- A search tool call returning one document carrying only a title. -/
def searchOkTitleOnly : Nat → String → Except String Value :=
  fun _ _ => Except.ok (Value.list [Value.dict [("title", Value.str "헤드라인")]])

/-- The spec's end-to-end example payload: two documents, the first with
content/title/url, the second with snippet/url only. -/
def rawExample : Value := Value.list
  [Value.dict [("content", Value.str "Q3 revenue rose 10%."),
               ("title", Value.str "Q3 Report"), ("url", Value.str "http://x/1")],
   Value.dict [("snippet", Value.str "Guidance raised."), ("url", Value.str "http://x/2")]]

/-- A generative client that always succeeds. -/
def llmOk : String → Except String String :=
  fun _ => Except.ok "생성 결과"

/-- A generative client that always fails. -/
def llmFail : String → Except String String :=
  fun _ => Except.error "RateLimitError"

/-- A process environment holding only an OPENAI key. -/
def envOpenAI : String → String :=
  fun k => if k = "OPENAI_API_KEY" then "sk-live-123" else ""

/-- A secret store holding only a TAVILY key. -/
def storeTavily : SecretStore :=
  SecretStore.available (fun k => if k = "TAVILY_API_KEY" then some "tvly-456" else Option.none)

/-- A secret store whose every access raises. -/
def storeBroken : SecretStore :=
  SecretStore.unavailable "StreamlitSecretNotFoundError"

/-! Helper lemmas. -/

/-- Unfold `extract_contents` through the document list and the loop, for
every input shape (the early `None` return agrees with the general branch on
the empty document list). -/
theorem extract_contents_eq (results : Value) :
    extract_contents results =
      (pyJoin "\n\n" (extractLoop (docsOf results)).1).map
        (fun t => (pyStrip t, (extractLoop (docsOf results)).2)) := by
  cases results <;> rfl

/-- A lookup that found a value other than `Value.none` implies the key is
present. -/
theorem dictHas_of_dictGet {kvs : List (String × Value)} {key : String}
    {v : Value} (h : dictGet kvs key = v) (hv : v ≠ Value.none) :
    dictHas kvs key = true := by
  induction kvs with
  | nil => exact absurd h.symm (by simpa using hv)
  | cons p rest ih =>
    obtain ⟨k, w⟩ := p
    by_cases hk : k = key
    · simp [dictHas, hk]
    · simp only [dictGet, if_neg hk] at h
      simpa [dictHas, hk] using ih h

/-- On a list of string values, the join's element check succeeds with exactly
those strings. -/
theorem pyStrAll_map_str (ss : List String) :
    pyStrAll (ss.map Value.str) = Except.ok ss := by
  induction ss with
  | nil => rfl
  | cons s rest ih => simp [pyStrAll, pyStr, ih, Bind.bind, Except.bind]

/-- The join's element check succeeds whenever every element is a string. -/
theorem pyStrAll_ok_of_str {xs : List Value}
    (h : ∀ c ∈ xs, ∃ s, c = Value.str s) :
    ∃ ss, pyStrAll xs = Except.ok ss := by
  induction xs with
  | nil => exact ⟨[], rfl⟩
  | cons v rest ih =>
    obtain ⟨s, rfl⟩ := h v (List.mem_cons_self _ _)
    obtain ⟨ss, hss⟩ := ih (fun c hc => h c (List.mem_cons_of_mem _ hc))
    exact ⟨s :: ss, by simp [pyStrAll, pyStr, hss, Bind.bind, Except.bind]⟩

/-- The two-field truthiness chain of the source equals the spec's
first-non-empty over string-or-absent fields. -/
theorem pyOr_two_str {a b : Value} (ha : StrOrAbsent a) (hb : StrOrAbsent b) :
    pyOr (pyOr a b) (Value.str "") =
      Value.str (firstNonEmptyStr [vToOpt a, vToOpt b]) := by
  rcases ha with rfl | ⟨s, rfl⟩ <;> rcases hb with rfl | ⟨t, rfl⟩
  · rfl
  · by_cases ht : t = "" <;> simp [pyOr, truthy, vToOpt, firstNonEmptyStr, ht]
  · by_cases hs : s = "" <;> simp [pyOr, truthy, vToOpt, firstNonEmptyStr, hs]
  · by_cases hs : s = "" <;> by_cases ht : t = "" <;>
      simp [pyOr, truthy, vToOpt, firstNonEmptyStr, hs, ht]

/-- The one-field truthiness chain of the source equals the spec's
first-non-empty over a string-or-absent field. -/
theorem pyOr_one_str {a : Value} (ha : StrOrAbsent a) :
    pyOr a (Value.str "") = Value.str (firstNonEmptyStr [vToOpt a]) := by
  rcases ha with rfl | ⟨s, rfl⟩
  · rfl
  · by_cases hs : s = "" <;> simp [pyOr, truthy, vToOpt, firstNonEmptyStr, hs]

/-- Over documents with string-or-absent fields, the source loop computes
exactly the spec-side extraction, with the string results wrapped back into
`Value.str`. -/
theorem extractLoop_spec (docs : List Value)
    (h : ∀ d ∈ docs, WellFormedDoc d) :
    extractLoop docs =
      ((specExtractDocs docs).1.map Value.str,
       (specExtractDocs docs).2.map (fun p => (Value.str p.1, Value.str p.2))) := by
  induction docs with
  | nil => rfl
  | cons d ds ih =>
    have hds := ih (fun x hx => h x (List.mem_cons_of_mem _ hx))
    cases d with
    | dict kvs =>
      obtain ⟨h1, h2, h3, h4, h5⟩ := h _ (List.mem_cons_self _ _) kvs rfl
      simp only [extractLoop, specExtractDocs, hds,
        pyOr_two_str h1 h2, pyOr_two_str h3 h4, pyOr_one_str h5]
      by_cases hc : firstNonEmptyStr [vToOpt (dictGet kvs "content"), vToOpt (dictGet kvs "snippet")] = "" <;>
        by_cases hu : firstNonEmptyStr [vToOpt (dictGet kvs "url"), vToOpt (dictGet kvs "link")] = "" <;>
          by_cases ht : firstNonEmptyStr [vToOpt (dictGet kvs "title")] = "" <;>
            simp [truthy, hc, hu, ht]
    | none => simpa [extractLoop, specExtractDocs] using hds
    | int n => simpa [extractLoop, specExtractDocs] using hds
    | str s => simpa [extractLoop, specExtractDocs] using hds
    | list xs => simpa [extractLoop, specExtractDocs] using hds

/-- Every citation the loop emits has a truthy title or a truthy url. -/
theorem extractLoop_sources_valid (docs : List Value) :
    ∀ p ∈ (extractLoop docs).2, truthy p.1 = true ∨ truthy p.2 = true := by
  induction docs with
  | nil => simp [extractLoop]
  | cons d ds ih =>
    cases d with
    | dict kvs =>
      intro p hp
      simp only [extractLoop] at hp
      split at hp
      · rename_i hcond
        rcases List.mem_cons.mp hp with rfl | hmem
        · rw [Bool.or_eq_true] at hcond
          rcases hcond with hu | ht
          · exact Or.inr hu
          · exact Or.inl ht
        · exact ih p hmem
      · exact ih p hp
    | none => exact ih
    | int n => exact ih
    | str s => exact ih
    | list xs => exact ih

/-! Claim theorems. -/

/-- Claim C1: for every document list derived by the normalizer (over
documents whose five relevant fields, where present, are strings), the loop
processes elements in order — non-mappings are skipped, the text fragment is
the first non-empty of content/snippet and is appended when non-empty, the
citation (title, url) with url the first non-empty of url/link is appended
when either part is non-empty, in order with no de-duplication — and an
element lacking all five fields contributes nothing; no error occurs and
`extract_contents` returns the joined, stripped text with those sources. -/
theorem extract_contents_processes_docs_in_order (results : Value)
    (h : ∀ d ∈ docsOf results, WellFormedDoc d) :
    extractLoop (docsOf results) =
      ((specExtractDocs (docsOf results)).1.map Value.str,
       (specExtractDocs (docsOf results)).2.map (fun p => (Value.str p.1, Value.str p.2))) ∧
    extract_contents results =
      Except.ok (pyStrip (String.intercalate "\n\n" (specExtractDocs (docsOf results)).1),
        (specExtractDocs (docsOf results)).2.map (fun p => (Value.str p.1, Value.str p.2))) := by
  have hl := extractLoop_spec _ h
  refine ⟨hl, ?_⟩
  rw [extract_contents_eq, hl]
  simp [pyJoin, pyStrAll_map_str, Except.map]

/-- Witness for C1 at the spec's example payload. -/
theorem extract_contents_processes_docs_in_order_witness :
    extractLoop (docsOf rawExample) =
      ([Value.str "Q3 revenue rose 10%.", Value.str "Guidance raised."],
       [(Value.str "Q3 Report", Value.str "http://x/1"),
        (Value.str "", Value.str "http://x/2")]) ∧
    extract_contents rawExample =
      Except.ok ("Q3 revenue rose 10%.\n\nGuidance raised.",
        [(Value.str "Q3 Report", Value.str "http://x/1"),
         (Value.str "", Value.str "http://x/2")]) := by
  have hwf : ∀ d ∈ docsOf rawExample, WellFormedDoc d := by
    intro d hd
    rcases List.mem_cons.mp hd with rfl | hd2
    · intro kvs hk
      injection hk with hk'
      subst hk'
      exact ⟨Or.inr ⟨_, rfl⟩, Or.inl rfl, Or.inr ⟨_, rfl⟩, Or.inl rfl, Or.inr ⟨_, rfl⟩⟩
    rcases List.mem_cons.mp hd2 with rfl | hd3
    · intro kvs hk
      injection hk with hk'
      subst hk'
      exact ⟨Or.inl rfl, Or.inr ⟨_, rfl⟩, Or.inr ⟨_, rfl⟩, Or.inl rfl, Or.inl rfl⟩
    · exact absurd hd3 (List.not_mem_nil d)
  exact extract_contents_processes_docs_in_order rawExample hwf

/-- Claim C2 counterexample: on a list containing a mapping whose "content"
field is the integer 42, the truthy non-string fragment reaches
`"\n\n".join`, which raises a TypeError — so `extract_contents` is not total
over every input value. -/
theorem extract_contents_total_cex :
    extract_contents (Value.list [Value.dict [("content", Value.int 42)]]) =
      Except.error "TypeError: sequence item: expected str instance" := rfl

/-- Claim C2 amended: `extract_contents` returns without raising on every
input whose collected text fragments are all strings — in particular on None
and on the unsupported shape 42, where it returns empty text and empty
sources; it raises only when a truthy non-string content/snippet field value
reaches the join. -/
theorem extract_contents_fail_open (results : Value)
    (h : ∀ c ∈ (extractLoop (docsOf results)).1, ∃ s, c = Value.str s) :
    (∃ out, extract_contents results = Except.ok out) ∧
    extract_contents Value.none = Except.ok ("", []) ∧
    extract_contents (Value.int 42) = Except.ok ("", []) := by
  refine ⟨?_, rfl, rfl⟩
  obtain ⟨ss, hss⟩ := pyStrAll_ok_of_str h
  rw [extract_contents_eq, pyJoin, hss]
  exact ⟨_, rfl⟩

/-- Witness for C2 amended at the unsupported shape 42. -/
theorem extract_contents_fail_open_witness :
    (∃ out, extract_contents (Value.int 42) = Except.ok out) ∧
    extract_contents Value.none = Except.ok ("", []) ∧
    extract_contents (Value.int 42) = Except.ok ("", []) :=
  extract_contents_fail_open (Value.int 42) (by intro c hc; cases hc)

/-- Claim C3: a mapping whose "results" field holds a sequence `s` normalizes
exactly as the sequence `s` itself. -/
theorem extract_contents_results_field (kvs : List (String × Value))
    (s : List Value) (h : dictGet kvs "results" = Value.list s) :
    extract_contents (Value.dict kvs) = extract_contents (Value.list s) := by
  have hhas : dictHas kvs "results" = true :=
    dictHas_of_dictGet h (by simp)
  have hdocs : docsOf (Value.dict kvs) = s := by
    simp [docsOf, hhas, h]
  rw [extract_contents_eq, extract_contents_eq, hdocs]
  rfl

/-- Witness for C3 at a wrapper around the spec's example payload. -/
theorem extract_contents_results_field_witness :
    extract_contents (Value.dict [("results", rawExample)]) =
      extract_contents rawExample :=
  extract_contents_results_field _ _ rfl

/-- Claim C9: every citation emitted by `extract_contents` has a truthy
(non-empty, for strings) title or url. -/
theorem extract_contents_sources_valid (results : Value) (t : String)
    (ss : List (Value × Value)) (h : extract_contents results = Except.ok (t, ss)) :
    ∀ p ∈ ss, truthy p.1 = true ∨ truthy p.2 = true := by
  rw [extract_contents_eq, pyJoin] at h
  rcases hj : pyStrAll (extractLoop (docsOf results)).1 with e | ss0 <;> rw [hj] at h
  · simp [Except.map] at h
  · simp only [Except.map, Except.ok.injEq, Prod.mk.injEq] at h
    obtain ⟨-, rfl⟩ := h
    exact extractLoop_sources_valid _

/-- Witness for C9 at the spec's example payload. -/
theorem extract_contents_sources_valid_witness :
    truthy (Value.str "Q3 Report") = true ∨ truthy (Value.str "http://x/1") = true :=
  extract_contents_sources_valid rawExample "Q3 revenue rose 10%.\n\nGuidance raised."
    [(Value.str "Q3 Report", Value.str "http://x/1"), (Value.str "", Value.str "http://x/2")]
    rfl (Value.str "Q3 Report", Value.str "http://x/1") (List.mem_cons_self _ _)

/-- Claim C4 counterexample: the primary surface fails with a transient
transport error — not an unsupported call surface — yet `tavily_search` still
falls back to the alternate surface and returns its result, because the
source catches every exception; so the code does retry on transient
errors. -/
theorem tavily_search_fallback_cex :
    runTransient 3 "삼성전자 최근 뉴스" =
      Except.error "ReadTimeout: transient network error" ∧
    tavily_search runTransient invokeOk 3 "삼성전자 최근 뉴스" =
      Except.ok "invoke:삼성전자 최근 뉴스" := ⟨rfl, rfl⟩

/-- Claim C4 amended: `tavily_search` attempts the primary invocation first
and returns its result on success; on any exception from the primary —
unsupported call surface or transient error alike — it makes exactly one
fallback attempt with the same query and result cap, whose outcome (success
or error) is final. -/
theorem tavily_search_primary_then_one_fallback {E R : Type}
    (run invoke : Nat → String → Except E R) (max_results : Nat) (query : String) :
    (∀ r, run max_results query = Except.ok r →
        tavily_search run invoke max_results query = Except.ok r) ∧
    (∀ e, run max_results query = Except.error e →
        tavily_search run invoke max_results query = invoke max_results query) := by
  constructor
  · intro r h
    simp [tavily_search, h]
  · intro e h
    simp [tavily_search, h]

/-- Witness for C4 amended: the primary's success is returned directly, and a
primary failure yields exactly the alternate surface's outcome. -/
theorem tavily_search_primary_then_one_fallback_witness :
    tavily_search runOk invokeOk 3 "q" = Except.ok "run:q" ∧
    tavily_search runTransient invokeOk 3 "q" = invokeOk 3 "q" :=
  ⟨(tavily_search_primary_then_one_fallback runOk invokeOk 3 "q").1 _ rfl,
   (tavily_search_primary_then_one_fallback runTransient invokeOk 3 "q").2 _ rfl⟩

/-- Claim C5: when either required secret resolves to the empty string, the
page run makes no external call at all and ends in a missing-configuration
halt. -/
theorem missing_secret_halts_before_network
    (openai_key tavily_key : String)
    (run invoke : Nat → String → Except String Value)
    (llm : String → Except String String)
    (max_results : Nat) (button : Bool) (stock_name : String)
    (h : openai_key = "" ∨ tavily_key = "") :
    (appRun openai_key tavily_key run invoke llm max_results button stock_name).1 = [] ∧
    ∃ k, (appRun openai_key tavily_key run invoke llm max_results button stock_name).2 =
      Outcome.missingConfig k := by
  rcases h with rfl | rfl
  · exact ⟨rfl, "OPENAI_API_KEY", rfl⟩
  · by_cases hok : openai_key = ""
    · subst hok
      exact ⟨rfl, "OPENAI_API_KEY", rfl⟩
    · exact ⟨by simp [appRun, hok], "TAVILY_API_KEY", by simp [appRun, hok]⟩

/-- Witness for C5 with an empty generative-API key. -/
theorem missing_secret_halts_before_network_witness :
    (appRun "" "tvly-456" searchOkDocs searchOkDocs llmOk 3 true "삼성전자").1 = [] ∧
    ∃ k, (appRun "" "tvly-456" searchOkDocs searchOkDocs llmOk 3 true "삼성전자").2 =
      Outcome.missingConfig k :=
  missing_secret_halts_before_network "" "tvly-456" searchOkDocs searchOkDocs
    llmOk 3 true "삼성전자" (Or.inl rfl)

/-- Claim C6: whenever the normalized text is empty, the action stops after
the single search call with the no-content outcome and no generative call is
made; in particular the empty result list normalizes to empty text and empty
sources. -/
theorem empty_content_halts_no_generation
    (openai_key tavily_key : String)
    (run invoke : Nat → String → Except String Value)
    (llm : String → Except String String)
    (max_results : Nat) (stock_name : String)
    (results : Value) (srcs : List (Value × Value))
    (hok : openai_key ≠ "") (htk : tavily_key ≠ "")
    (hsn : pyStrip stock_name ≠ "")
    (hsearch : tavily_search run invoke max_results
        (pyStrip stock_name ++ " 최근 뉴스") = Except.ok results)
    (hext : extract_contents results = Except.ok ("", srcs)) :
    appRun openai_key tavily_key run invoke llm max_results true stock_name =
      ([Event.search (pyStrip stock_name ++ " 최근 뉴스") max_results],
       Outcome.noContent) ∧
    extract_contents (Value.list []) = Except.ok ("", []) := by
  refine ⟨?_, rfl⟩
  simp [appRun, hok, htk, hsn, hsearch, hext]

/-- Witness for C6 on the empty search result list. -/
theorem empty_content_halts_no_generation_witness :
    appRun "sk-live-123" "tvly-456" searchOkEmpty searchOkEmpty llmOk 3 true "삼성전자" =
      ([Event.search (pyStrip "삼성전자" ++ " 최근 뉴스") 3], Outcome.noContent) ∧
    extract_contents (Value.list []) = Except.ok ("", []) :=
  empty_content_halts_no_generation "sk-live-123" "tvly-456" searchOkEmpty
    searchOkEmpty llmOk 3 "삼성전자" (Value.list []) []
    (by decide) (by decide) (by decide) rfl rfl

/-- Claim C7: when the keyword-extraction call fails, the run ends with a
keywords-stage generation failure after exactly one search call and one
generative call — the report stage is never attempted. -/
theorem keywords_failure_stops_pipeline
    (openai_key tavily_key : String)
    (run invoke : Nat → String → Except String Value)
    (llm : String → Except String String)
    (max_results : Nat) (stock_name : String)
    (results : Value) (text : String) (srcs : List (Value × Value)) (e : String)
    (hok : openai_key ≠ "") (htk : tavily_key ≠ "")
    (hsn : pyStrip stock_name ≠ "")
    (hsearch : tavily_search run invoke max_results
        (pyStrip stock_name ++ " 최근 뉴스") = Except.ok results)
    (hext : extract_contents results = Except.ok (text, srcs))
    (htext : text ≠ "")
    (hllm : llm (keyword_prompt stock_name text) = Except.error e) :
    appRun openai_key tavily_key run invoke llm max_results true stock_name =
      ([Event.search (pyStrip stock_name ++ " 최근 뉴스") max_results,
        Event.generate "keywords" (keyword_prompt stock_name text)],
       Outcome.generationFailed "keywords" e) := by
  simp [appRun, hok, htk, hsn, hsearch, hext, htext, hllm]

/-- Witness for C7 with a generative client that always fails. -/
theorem keywords_failure_stops_pipeline_witness :
    appRun "sk-live-123" "tvly-456" searchOkDocs searchOkDocs llmFail 3 true "삼성전자" =
      ([Event.search (pyStrip "삼성전자" ++ " 최근 뉴스") 3,
        Event.generate "keywords" (keyword_prompt "삼성전자" "삼성전자 신제품 발표")],
       Outcome.generationFailed "keywords" "RateLimitError") :=
  keywords_failure_stops_pipeline "sk-live-123" "tvly-456" searchOkDocs
    searchOkDocs llmFail 3 "삼성전자" _ "삼성전자 신제품 발표"
    [(Value.str "뉴스", Value.str "http://n/1")] "RateLimitError"
    (by decide) (by decide) (by decide) rfl rfl (by decide) rfl

/-- Claim C8: `get_secret` returns the environment value when it is
non-empty; otherwise it consults the store, getting the stored value or the
default when the key is absent, and swallowing a store failure into the
default. -/
theorem get_secret_resolution (env : String → String) (store : SecretStore)
    (key default : String) :
    (env key ≠ "" → get_secret env store key default = env key) ∧
    (env key = "" → ∀ m, store = SecretStore.available m →
        get_secret env store key default = (m key).getD default) ∧
    (env key = "" → ∀ e, store = SecretStore.unavailable e →
        get_secret env store key default = default) := by
  refine ⟨fun h => by simp [get_secret, h], fun h m hm => ?_, fun h e he => ?_⟩
  · subst hm
    simp [get_secret, h, storeGet]
  · subst he
    simp [get_secret, h, storeGet]

/-- Witness for C8: environment wins when non-empty; otherwise the store
value, the default on an absent key, and the default when the store
raises. -/
theorem get_secret_resolution_witness :
    get_secret envOpenAI storeTavily "OPENAI_API_KEY" "" = envOpenAI "OPENAI_API_KEY" ∧
    get_secret envOpenAI storeTavily "TAVILY_API_KEY" "" = "tvly-456" ∧
    get_secret envOpenAI storeTavily "ABSENT_KEY" "dflt" = "dflt" ∧
    get_secret envOpenAI storeBroken "TAVILY_API_KEY" "dflt" = "dflt" := by
  refine ⟨?_, ?_, ?_, ?_⟩
  · exact (get_secret_resolution envOpenAI storeTavily "OPENAI_API_KEY" "").1 (by decide)
  · exact (get_secret_resolution envOpenAI storeTavily "TAVILY_API_KEY" "").2.1 rfl _ rfl
  · exact (get_secret_resolution envOpenAI storeTavily "ABSENT_KEY" "dflt").2.1 rfl _ rfl
  · exact (get_secret_resolution envOpenAI storeBroken "TAVILY_API_KEY" "dflt").2.2 rfl _ rfl

/-- Claim C10: text and citation extraction are independent — a document
carrying only a title yields empty text together with a non-empty sources
list, and the action then halts with the no-content outcome even though a
citation was found. -/
theorem title_only_doc_independence :
    extract_contents (Value.list [Value.dict [("title", Value.str "헤드라인")]]) =
      Except.ok ("", [(Value.str "헤드라인", Value.str "")]) ∧
    appRun "sk-live-123" "tvly-456" searchOkTitleOnly searchOkTitleOnly llmOk 3 true "삼성전자" =
      ([Event.search (pyStrip "삼성전자" ++ " 최근 뉴스") 3], Outcome.noContent) :=
  ⟨rfl, rfl⟩

end LibraryChatbot
